import Mathlib

/-!
Shallow embedding of `osm2lanes/core.py` (lane tag parsing) and proofs about
its specification.  The Python module turns an OpenStreetMap tag dictionary
plus a regional driving side into an ordered, left-to-right list of lane
specifications.  All definitions below are translated directly from the
source file; lemmas and claim theorems follow.
-/

set_option maxHeartbeats 1000000

namespace Osm2Lanes

/-- Python `DrivingSide`: bidirectional traffic practice. -/
inductive DrivingSide where
  | right
  | left
  deriving DecidableEq, Repr

/-- Python `Direction`: lane direction relative to the OpenStreetMap way direction. -/
inductive Direction where
  | forward
  | backward
  | both
  | none
  deriving DecidableEq, Repr

/-- Python `LaneType`: lane type. -/
inductive LaneType where
  | travel
  | parking
  | shoulder
  | separator
  | construction
  deriving DecidableEq, Repr

/-- Python `LaneDesignation`: which traffic class a lane serves. -/
inductive LaneDesignation where
  | any
  | foot
  | bicycle
  | motor
  | bus
  | taxi
  deriving DecidableEq, Repr

/-- Python `Lane`: lane specification, `(type_, direction, designation)`; the Python
dataclass stores `None` for an absent direction or designation, embedded here
as `Option`. -/
structure Lane where
  type_ : LaneType
  direction : Option Direction
  designation : Option LaneDesignation
  deriving DecidableEq, Repr

/-- Python `Tags = dict[str, str]`, embedded as an association list; lookups take the
first matching key, and a Python dict never holds a duplicate key. -/
abbrev Tags := List (String × String)

/-- Python `tags.get(key)`: `None`-defaulting dictionary lookup. -/
def Tags.get (tags : Tags) (key : String) : Option String :=
  List.lookup key tags

/-- A road side.  The Python code denotes sides by the strings `"left"` and
`"right"`; the call sites pass no other value, so the two-element domain is
embedded as an inductive type, with `Side.str` recovering the string used
when a side is interpolated into a tag key. -/
inductive Side where
  | left
  | right
  deriving DecidableEq, Repr

/-- The string the Python code uses for a side. -/
def Side.str : Side → String
  | .left => "left"
  | .right => "right"

/-- Numeric value of a decimal digit character, `none` on any other
character. -/
def digitVal? (c : Char) : Option Nat :=
  if '0' ≤ c ∧ c ≤ '9' then some (c.toNat - '0'.toNat) else Option.none

/-- Left fold accumulating the decimal value of a digit string; `none` as soon
as a non-digit appears. -/
def digitsValAux : List Char → Nat → Option Nat
  | [], acc => some acc
  | c :: rest, acc =>
    match digitVal? c with
    | some d => digitsValAux rest (acc * 10 + d)
    | Option.none => Option.none

/-- Python `int(string)` on an optional minus sign followed by decimal digits;
`none` models the `ValueError` Python raises on any other string.  (Python
additionally accepts surrounding whitespace, a plus sign and digit-group
underscores; no claim depends on those spellings.) -/
def pyInt? (s : String) : Option Int :=
  match s.data with
  | '-' :: rest =>
    if rest = [] then Option.none
    else (digitsValAux rest 0).map (fun k => -(k : Int))
  | chars =>
    if chars = [] then Option.none
    else (digitsValAux chars 0).map (fun k => (k : Int))

/-- Python `int(n / 2.0)`: division then truncation toward zero (`Int./` is
euclidean division, so the negative case is negated to truncate upward). -/
def truncHalf (n : Int) : Int :=
  if 0 ≤ n then n / 2 else -((-n) / 2)

/-- Python `math.ceil(n / 2.0)`, as the negated euclidean division of the
negation. -/
def ceilHalf (n : Int) : Int :=
  -((-n) / 2)

/-- Python `Road`: OpenStreetMap way or relation described road part. -/
structure Road where
  tags : Tags
  drivingSide : DrivingSide

/-- Python `Road.add_lane`: prepend the lane on the left side, append it on the
right side. -/
def Road.add_lane (lanes : List Lane) (lane : Lane) (side : Side) : List Lane :=
  if side = Side.left then [lane] ++ lanes else lanes ++ [lane]

/-- Python `Road.get_direction`: compute lane direction based on road side and
bidirectional traffic practice. -/
def Road.get_direction (road : Road) (side : Side) (isInverted : Bool := false) :
    Direction :=
  if side = Side.right ∧ road.drivingSide = DrivingSide.right
      ∨ side = Side.left ∧ road.drivingSide = DrivingSide.left then
    if isInverted then Direction.backward else Direction.forward
  else
    if isInverted then Direction.forward else Direction.backward

/-- Python `Road.add_both_lanes`: add one lane at the left and one at the right
boundary.  Shoulders and foot-designated travel lanes carry no direction;
every other lane gets the direction resolved for its side. -/
def Road.add_both_lanes (road : Road) (lanes : List Lane) (type_ : LaneType)
    (designation : Option LaneDesignation) : List Lane :=
  if type_ = LaneType.shoulder
      ∨ (type_ = LaneType.travel ∧ designation = some LaneDesignation.foot) then
    [⟨type_, Option.none, designation⟩] ++ lanes ++ [⟨type_, Option.none, designation⟩]
  else
    [⟨type_, some (road.get_direction Side.left), designation⟩] ++ lanes
      ++ [⟨type_, some (road.get_direction Side.right), designation⟩]

/-- Python `Road.get_extra_lanes`: number of lanes already claimed by bus-only
tagging: `2` for a both-sides bus lane tag, plus `1` if at least one of the
per-side bus lane tags is present (the Python code combines the two per-side
checks with `or`). -/
def Road.get_extra_lanes (road : Road) : Int :=
  (if road.tags.get "busway" = some "lane" ∨ road.tags.get "busway:both" = some "lane"
    then 2 else 0)
  + (if road.tags.get "busway:right" = some "lane" ∨ road.tags.get "busway:left" = some "lane"
    then 1 else 0)

/-- Python `oneway`: whether the `oneway` tag is literally `"yes"`. -/
def Road.oneway (road : Road) : Bool :=
  road.tags.get "oneway" = some "yes"

/-- Python `travel_lane_number` before promotion: the tagged total lane count minus
`get_extra_lanes`, defaulting to `2` when the `lanes` tag is missing or empty
(both are falsy in Python); `none` models the `ValueError` Python raises on a
non-numeric `lanes` value. -/
def Road.travel_lane_number (road : Road) : Option Int :=
  match road.tags.get "lanes" with
  | some s =>
    if s = "" then some 2
    else
      match pyInt? s with
      | some k => some (k - road.get_extra_lanes)
      | Option.none => Option.none
  | Option.none => some 2

/-- The size of the left half of the travel lanes in `Road.parse`:
`int(travel_lane_number / 2.0)` under right-hand traffic,
`math.ceil(travel_lane_number / 2.0)` under left-hand traffic. -/
def Road.half (road : Road) (n : Int) : Int :=
  if road.drivingSide = DrivingSide.right then truncHalf n else ceilHalf n

/-- The travel-lane section of `Road.parse` (the code between the `if oneway:`
branch and the cycleway section), for a given travel lane number `n`:
one-way roads get `n` forward motor lanes; otherwise the left half, then an
optional centre turn lane, then the right half.  Python's `list * k` yields
`[]` for a negative `k`, hence `Int.toNat`. -/
def Road.laneCountPhase (road : Road) (n : Int) : List Lane :=
  if road.oneway then
    List.replicate n.toNat
      ⟨LaneType.travel, some Direction.forward, some LaneDesignation.motor⟩
  else
    List.replicate (road.half n).toNat
      ⟨LaneType.travel, some (road.get_direction Side.left), some LaneDesignation.motor⟩
    ++ (if road.tags.get "centre_turn_lane" = some "yes" then
        [⟨LaneType.travel, some Direction.both, some LaneDesignation.motor⟩] else [])
    ++ List.replicate (n - road.half n).toNat
      ⟨LaneType.travel, some (road.get_direction Side.right), some LaneDesignation.motor⟩

/-- One iteration of the cycleway `for side in sides` loop.  The left side
prepends and the right side appends, so the two iterations commute and the
(arbitrary) Python set iteration order does not affect the result. -/
def Road.cyclewaySide (road : Road) (lanes : List Lane) (side : Side) : List Lane :=
  if road.tags.get ("cycleway:" ++ side.str) = some "lane" then
    Road.add_lane lanes
      ⟨LaneType.travel,
        some (if road.oneway then Direction.forward else road.get_direction side),
        some LaneDesignation.bicycle⟩ side
  else if road.tags.get ("cycleway:" ++ side.str) = some "track"
      ∨ road.tags.get ("cycleway:" ++ side.str) = some "opposite_track" then
    Road.add_lane lanes
      ⟨LaneType.travel, some Direction.both, some LaneDesignation.bicycle⟩ side
  else lanes

/-- The cycleway section of `Road.parse`. -/
def Road.cyclewayPhase (road : Road) (lanes : List Lane) : List Lane :=
  road.cyclewaySide (road.cyclewaySide lanes Side.left) Side.right

/-- One iteration of the per-side bus lane loop of `Road.parse`. -/
def Road.buswaySide (road : Road) (lanes : List Lane) (side : Side) : List Lane :=
  if road.tags.get ("busway:" ++ side.str) = some "lane" then
    Road.add_lane lanes
      ⟨LaneType.travel, some (road.get_direction side), some LaneDesignation.bus⟩ side
  else lanes

/-- The bus lane section of `Road.parse`: the both-sides insertion first,
then the per-side loop. -/
def Road.buswayPhase (road : Road) (lanes : List Lane) : List Lane :=
  let lanes1 :=
    if road.tags.get "busway" = some "lane" ∨ road.tags.get "busway:both" = some "lane" then
      road.add_both_lanes lanes LaneType.travel (some LaneDesignation.bus)
    else lanes
  road.buswaySide (road.buswaySide lanes1 Side.left) Side.right

/-- One iteration of the per-side parking lane loop of `Road.parse`; the
per-side values that trigger a lane are `parking_values = {"parallel",
"diagonal"}`. -/
def Road.parkingSide (road : Road) (lanes : List Lane) (side : Side) : List Lane :=
  if road.tags.get ("parking:lane:" ++ side.str) = some "parallel"
      ∨ road.tags.get ("parking:lane:" ++ side.str) = some "diagonal" then
    Road.add_lane lanes
      ⟨LaneType.parking, some (road.get_direction side), some LaneDesignation.motor⟩ side
  else lanes

/-- The parking lane section of `Road.parse`: the both-sides insertion (which
the code triggers only on the exact value `"parallel"`), then the per-side
loop. -/
def Road.parkingPhase (road : Road) (lanes : List Lane) : List Lane :=
  let lanes1 :=
    if road.tags.get "parking:lane:both" = some "parallel" then
      road.add_both_lanes lanes LaneType.parking (some LaneDesignation.motor)
    else lanes
  road.parkingSide (road.parkingSide lanes1 Side.left) Side.right

/-- Python `is_rural` in `Road.parse`: no `sidewalk` tag at all, a `lanes` tag that
is absent or literally `"2"`, and no `oneway` tag at all. -/
def Road.is_rural (road : Road) : Bool :=
  road.tags.get "sidewalk" = Option.none
  ∧ (road.tags.get "lanes" = Option.none ∨ road.tags.get "lanes" = some "2")
  ∧ road.tags.get "oneway" = Option.none

/-- One iteration of the per-side sidewalk loop of `Road.parse`. -/
def Road.sidewalkSide (road : Road) (lanes : List Lane) (side : Side) : List Lane :=
  if road.tags.get "sidewalk" = some side.str then
    Road.add_lane lanes
      ⟨LaneType.travel, Option.none, some LaneDesignation.foot⟩ side
  else lanes

/-- The sidewalk section of `Road.parse`: `sidewalk=both` inserts a foot
travel lane at each boundary, `sidewalk=none` or the rural heuristic inserts
a shoulder at each boundary, and otherwise a per-side tag inserts a single
foot travel lane at its side. -/
def Road.sidewalkPhase (road : Road) (lanes : List Lane) : List Lane :=
  if road.tags.get "sidewalk" = some "both" then
    road.add_both_lanes lanes LaneType.travel (some LaneDesignation.foot)
  else if road.tags.get "sidewalk" = some "none" ∨ road.is_rural then
    road.add_both_lanes lanes LaneType.shoulder Option.none
  else
    road.sidewalkSide (road.sidewalkSide lanes Side.left) Side.right

/-- Python `Road.parse`: parse road features described by tags and generate the list
of lane specifications from left to right.  `none` models the `ValueError`
Python raises on a non-numeric `lanes` tag value; otherwise the travel lane
number is promoted from `1` to `2` on a road that is not one-way, and the
travel lanes are threaded through the cycleway, bus, parking and sidewalk
sections in this order. -/
def Road.parse (road : Road) : Option (List Lane) :=
  match road.travel_lane_number with
  | Option.none => Option.none
  | some n0 =>
    let n : Int := if n0 = 1 ∧ road.oneway = false then 2 else n0
    some (road.sidewalkPhase (road.parkingPhase (road.buswayPhase
      (road.cyclewayPhase (road.laneCountPhase n)))))

/-! ### Insertion lists of the overlay sections

Every overlay section of `Road.parse` only prepends lanes on the left and
appends lanes on the right of the list built so far, and which lanes it
inserts depends only on the road (its tags and driving side), never on the
list.  The following definitions give, for each section and side, the list
of lanes it inserts there; the lemmas after them rewrite each section into
the normal form `ins left ++ lanes ++ ins right`. -/

/-- Lanes the cycleway section inserts at a side. -/
def Road.cyclewayIns (road : Road) (side : Side) : List Lane :=
  if road.tags.get ("cycleway:" ++ side.str) = some "lane" then
    [⟨LaneType.travel,
      some (if road.oneway then Direction.forward else road.get_direction side),
      some LaneDesignation.bicycle⟩]
  else if road.tags.get ("cycleway:" ++ side.str) = some "track"
      ∨ road.tags.get ("cycleway:" ++ side.str) = some "opposite_track" then
    [⟨LaneType.travel, some Direction.both, some LaneDesignation.bicycle⟩]
  else []

/-- Lanes the both-sides bus insertion contributes at a side. -/
def Road.buswayBothIns (road : Road) (side : Side) : List Lane :=
  if road.tags.get "busway" = some "lane" ∨ road.tags.get "busway:both" = some "lane" then
    [⟨LaneType.travel, some (road.get_direction side), some LaneDesignation.bus⟩]
  else []

/-- Lanes the per-side bus loop inserts at a side. -/
def Road.buswayIns (road : Road) (side : Side) : List Lane :=
  if road.tags.get ("busway:" ++ side.str) = some "lane" then
    [⟨LaneType.travel, some (road.get_direction side), some LaneDesignation.bus⟩]
  else []

/-- Lanes the both-sides parking insertion contributes at a side. -/
def Road.parkingBothIns (road : Road) (side : Side) : List Lane :=
  if road.tags.get "parking:lane:both" = some "parallel" then
    [⟨LaneType.parking, some (road.get_direction side), some LaneDesignation.motor⟩]
  else []

/-- Lanes the per-side parking loop inserts at a side. -/
def Road.parkingIns (road : Road) (side : Side) : List Lane :=
  if road.tags.get ("parking:lane:" ++ side.str) = some "parallel"
      ∨ road.tags.get ("parking:lane:" ++ side.str) = some "diagonal" then
    [⟨LaneType.parking, some (road.get_direction side), some LaneDesignation.motor⟩]
  else []

/-- Lanes the sidewalk section inserts at a side. -/
def Road.sidewalkIns (road : Road) (side : Side) : List Lane :=
  if road.tags.get "sidewalk" = some "both" then
    [⟨LaneType.travel, Option.none, some LaneDesignation.foot⟩]
  else if road.tags.get "sidewalk" = some "none" ∨ road.is_rural then
    [⟨LaneType.shoulder, Option.none, Option.none⟩]
  else if road.tags.get "sidewalk" = some side.str then
    [⟨LaneType.travel, Option.none, some LaneDesignation.foot⟩]
  else []

/-- Everything `Road.parse` puts left of the travel-lane core. -/
def Road.leftOverlay (road : Road) : List Lane :=
  road.sidewalkIns Side.left ++ road.parkingIns Side.left
    ++ road.parkingBothIns Side.left ++ road.buswayIns Side.left
    ++ road.buswayBothIns Side.left ++ road.cyclewayIns Side.left

/-- Everything `Road.parse` puts right of the travel-lane core. -/
def Road.rightOverlay (road : Road) : List Lane :=
  road.cyclewayIns Side.right ++ road.buswayBothIns Side.right
    ++ road.buswayIns Side.right ++ road.parkingBothIns Side.right
    ++ road.parkingIns Side.right ++ road.sidewalkIns Side.right

/-- The travel lane number `Road.parse` settles on, after the promotion of a
count of `1` on a road that is not one-way. -/
def Road.laneCount? (road : Road) : Option Int :=
  (road.travel_lane_number).map
    (fun n0 => if n0 = 1 ∧ road.oneway = false then 2 else n0)

theorem Road.add_both_lanes_bus (road : Road) (lanes : List Lane) :
    road.add_both_lanes lanes LaneType.travel (some LaneDesignation.bus)
    = [⟨LaneType.travel, some (road.get_direction Side.left), some LaneDesignation.bus⟩]
      ++ lanes
      ++ [⟨LaneType.travel, some (road.get_direction Side.right), some LaneDesignation.bus⟩] := by
  unfold Road.add_both_lanes
  rw [if_neg (by decide)]

theorem Road.add_both_lanes_parking (road : Road) (lanes : List Lane) :
    road.add_both_lanes lanes LaneType.parking (some LaneDesignation.motor)
    = [⟨LaneType.parking, some (road.get_direction Side.left), some LaneDesignation.motor⟩]
      ++ lanes
      ++ [⟨LaneType.parking, some (road.get_direction Side.right), some LaneDesignation.motor⟩] := by
  unfold Road.add_both_lanes
  rw [if_neg (by decide)]

theorem Road.add_both_lanes_foot (road : Road) (lanes : List Lane) :
    road.add_both_lanes lanes LaneType.travel (some LaneDesignation.foot)
    = [⟨LaneType.travel, Option.none, some LaneDesignation.foot⟩] ++ lanes
      ++ [⟨LaneType.travel, Option.none, some LaneDesignation.foot⟩] := by
  unfold Road.add_both_lanes
  rw [if_pos (by decide)]

theorem Road.add_both_lanes_shoulder (road : Road) (lanes : List Lane) :
    road.add_both_lanes lanes LaneType.shoulder Option.none
    = [⟨LaneType.shoulder, Option.none, Option.none⟩] ++ lanes
      ++ [⟨LaneType.shoulder, Option.none, Option.none⟩] := by
  unfold Road.add_both_lanes
  rw [if_pos (by decide)]

theorem Road.cyclewaySide_left (road : Road) (lanes : List Lane) :
    road.cyclewaySide lanes Side.left = road.cyclewayIns Side.left ++ lanes := by
  unfold Road.cyclewaySide Road.cyclewayIns Road.add_lane
  split
  · simp
  · split <;> simp

theorem Road.cyclewaySide_right (road : Road) (lanes : List Lane) :
    road.cyclewaySide lanes Side.right = lanes ++ road.cyclewayIns Side.right := by
  unfold Road.cyclewaySide Road.cyclewayIns Road.add_lane
  split
  · simp
  · split <;> simp

theorem Road.cyclewayPhase_eq (road : Road) (lanes : List Lane) :
    road.cyclewayPhase lanes
    = road.cyclewayIns Side.left ++ lanes ++ road.cyclewayIns Side.right := by
  unfold Road.cyclewayPhase
  rw [Road.cyclewaySide_left, Road.cyclewaySide_right, List.append_assoc]

theorem Road.buswaySide_left (road : Road) (lanes : List Lane) :
    road.buswaySide lanes Side.left = road.buswayIns Side.left ++ lanes := by
  unfold Road.buswaySide Road.buswayIns Road.add_lane
  split <;> simp

theorem Road.buswaySide_right (road : Road) (lanes : List Lane) :
    road.buswaySide lanes Side.right = lanes ++ road.buswayIns Side.right := by
  unfold Road.buswaySide Road.buswayIns Road.add_lane
  split <;> simp

theorem Road.buswayPhase_eq (road : Road) (lanes : List Lane) :
    road.buswayPhase lanes
    = road.buswayIns Side.left ++ road.buswayBothIns Side.left ++ lanes
      ++ road.buswayBothIns Side.right ++ road.buswayIns Side.right := by
  unfold Road.buswayPhase Road.buswayBothIns
  split
  · rw [Road.add_both_lanes_bus]
    simp [Road.buswaySide_left, Road.buswaySide_right, List.append_assoc]
  · simp [Road.buswaySide_left, Road.buswaySide_right, List.append_assoc]

theorem Road.parkingSide_left (road : Road) (lanes : List Lane) :
    road.parkingSide lanes Side.left = road.parkingIns Side.left ++ lanes := by
  unfold Road.parkingSide Road.parkingIns Road.add_lane
  split <;> simp

theorem Road.parkingSide_right (road : Road) (lanes : List Lane) :
    road.parkingSide lanes Side.right = lanes ++ road.parkingIns Side.right := by
  unfold Road.parkingSide Road.parkingIns Road.add_lane
  split <;> simp

theorem Road.parkingPhase_eq (road : Road) (lanes : List Lane) :
    road.parkingPhase lanes
    = road.parkingIns Side.left ++ road.parkingBothIns Side.left ++ lanes
      ++ road.parkingBothIns Side.right ++ road.parkingIns Side.right := by
  unfold Road.parkingPhase Road.parkingBothIns
  split
  · rw [Road.add_both_lanes_parking]
    simp [Road.parkingSide_left, Road.parkingSide_right, List.append_assoc]
  · simp [Road.parkingSide_left, Road.parkingSide_right, List.append_assoc]

theorem Road.sidewalkSide_left (road : Road) (lanes : List Lane) :
    road.sidewalkSide lanes Side.left
    = (if road.tags.get "sidewalk" = some "left" then
        [⟨LaneType.travel, Option.none, some LaneDesignation.foot⟩] else []) ++ lanes := by
  unfold Road.sidewalkSide Road.add_lane Side.str
  split <;> simp

theorem Road.sidewalkSide_right (road : Road) (lanes : List Lane) :
    road.sidewalkSide lanes Side.right
    = lanes ++ (if road.tags.get "sidewalk" = some "right" then
        [⟨LaneType.travel, Option.none, some LaneDesignation.foot⟩] else []) := by
  unfold Road.sidewalkSide Road.add_lane Side.str
  split <;> simp

theorem Road.sidewalkPhase_eq (road : Road) (lanes : List Lane) :
    road.sidewalkPhase lanes
    = road.sidewalkIns Side.left ++ lanes ++ road.sidewalkIns Side.right := by
  unfold Road.sidewalkPhase Road.sidewalkIns
  split
  · rw [Road.add_both_lanes_foot]
  · split
    · rw [Road.add_both_lanes_shoulder]
    · simp [Road.sidewalkSide_left, Road.sidewalkSide_right, Side.str,
        List.append_assoc]

/-- Normal form of `Road.parse`: once the travel lane number is known, the
output is the left overlays, then the travel-lane core, then the right
overlays. -/
theorem Road.parse_eq (road : Road) (n0 : Int)
    (h : road.travel_lane_number = some n0) :
    road.parse
    = some (road.leftOverlay
        ++ road.laneCountPhase (if n0 = 1 ∧ road.oneway = false then 2 else n0)
        ++ road.rightOverlay) := by
  unfold Road.parse Road.leftOverlay Road.rightOverlay
  rw [h]
  dsimp only
  rw [Road.cyclewayPhase_eq, Road.buswayPhase_eq, Road.parkingPhase_eq,
    Road.sidewalkPhase_eq]
  simp [List.append_assoc]

/-! ### What each overlay section can insert, and lane counting -/

/-- A plain motor-vehicle travel lane as emitted by the lane-count section:
travel type, motor designation, and not the `Both` direction of the centre
turn lane. -/
def Lane.isPlainMotorTravel (l : Lane) : Bool :=
  decide (l.type_ = LaneType.travel ∧ l.designation = some LaneDesignation.motor
    ∧ l.direction ≠ some Direction.both)

/-- A motor-vehicle travel lane (the centre turn lane included). -/
def Lane.isMotorTravel (l : Lane) : Bool :=
  decide (l.type_ = LaneType.travel ∧ l.designation = some LaneDesignation.motor)

theorem Road.get_direction_ne_both (road : Road) (side : Side) (b : Bool) :
    road.get_direction side b ≠ Direction.both := by
  unfold Road.get_direction
  split <;> cases b <;> simp

theorem Road.mem_cyclewayIns (road : Road) (side : Side) (l : Lane)
    (h : l ∈ road.cyclewayIns side) :
    l.type_ = LaneType.travel ∧ l.designation = some LaneDesignation.bicycle := by
  unfold Road.cyclewayIns at h
  split at h
  · simp at h
    subst h
    exact ⟨rfl, rfl⟩
  · split at h
    · simp at h
      subst h
      exact ⟨rfl, rfl⟩
    · simp at h

theorem Road.mem_buswayBothIns (road : Road) (side : Side) (l : Lane)
    (h : l ∈ road.buswayBothIns side) :
    l.type_ = LaneType.travel ∧ l.designation = some LaneDesignation.bus := by
  unfold Road.buswayBothIns at h
  split at h
  · simp at h
    subst h
    exact ⟨rfl, rfl⟩
  · simp at h

theorem Road.mem_buswayIns (road : Road) (side : Side) (l : Lane)
    (h : l ∈ road.buswayIns side) :
    l.type_ = LaneType.travel ∧ l.designation = some LaneDesignation.bus := by
  unfold Road.buswayIns at h
  split at h
  · simp at h
    subst h
    exact ⟨rfl, rfl⟩
  · simp at h

theorem Road.mem_parkingBothIns (road : Road) (side : Side) (l : Lane)
    (h : l ∈ road.parkingBothIns side) :
    l.type_ = LaneType.parking ∧ l.designation = some LaneDesignation.motor := by
  unfold Road.parkingBothIns at h
  split at h
  · simp at h
    subst h
    exact ⟨rfl, rfl⟩
  · simp at h

theorem Road.mem_parkingIns (road : Road) (side : Side) (l : Lane)
    (h : l ∈ road.parkingIns side) :
    l.type_ = LaneType.parking ∧ l.designation = some LaneDesignation.motor := by
  unfold Road.parkingIns at h
  split at h
  · simp at h
    subst h
    exact ⟨rfl, rfl⟩
  · simp at h

theorem Road.mem_sidewalkIns (road : Road) (side : Side) (l : Lane)
    (h : l ∈ road.sidewalkIns side) :
    l.direction = Option.none
    ∧ (l.type_ = LaneType.travel ∧ l.designation = some LaneDesignation.foot
      ∨ l.type_ = LaneType.shoulder ∧ l.designation = Option.none) := by
  unfold Road.sidewalkIns at h
  split at h
  · simp at h
    subst h
    exact ⟨rfl, Or.inl ⟨rfl, rfl⟩⟩
  · split at h
    · simp at h
      subst h
      exact ⟨rfl, Or.inr ⟨rfl, rfl⟩⟩
    · split at h
      · simp at h
        subst h
        exact ⟨rfl, Or.inl ⟨rfl, rfl⟩⟩
      · simp at h

theorem Road.mem_laneCountPhase (road : Road) (n : Int) (l : Lane)
    (h : l ∈ road.laneCountPhase n) :
    l.type_ = LaneType.travel ∧ l.designation = some LaneDesignation.motor := by
  unfold Road.laneCountPhase at h
  split at h
  · rw [List.eq_of_mem_replicate h]
    exact ⟨rfl, rfl⟩
  · simp only [List.mem_append] at h
    rcases h with (h | h) | h
    · rw [List.eq_of_mem_replicate h]
      exact ⟨rfl, rfl⟩
    · split at h
      · simp at h
        subst h
        exact ⟨rfl, rfl⟩
      · simp at h
    · rw [List.eq_of_mem_replicate h]
      exact ⟨rfl, rfl⟩

/-- No lane inserted by an overlay section is a motor-vehicle travel lane. -/
theorem Road.mem_overlay_not_motorTravel (road : Road) (l : Lane)
    (h : l ∈ road.leftOverlay ∨ l ∈ road.rightOverlay) :
    ¬(l.type_ = LaneType.travel ∧ l.designation = some LaneDesignation.motor) := by
  unfold Road.leftOverlay Road.rightOverlay at h
  simp only [List.mem_append] at h
  rintro ⟨ht, hd⟩
  rcases h with ((((((h | h) | h) | h) | h) | h) | (((((h | h) | h) | h) | h) | h))
  · rcases road.mem_sidewalkIns Side.left l h with ⟨-, (⟨-, hf⟩ | ⟨hs, -⟩)⟩
    · rw [hd] at hf
      exact Option.noConfusion hf (fun hh => LaneDesignation.noConfusion hh)
    · rw [ht] at hs
      exact LaneType.noConfusion hs
  · rw [(road.mem_parkingIns Side.left l h).1] at ht
    exact LaneType.noConfusion ht
  · rw [(road.mem_parkingBothIns Side.left l h).1] at ht
    exact LaneType.noConfusion ht
  · rw [(road.mem_buswayIns Side.left l h).2] at hd
    simp at hd
  · rw [(road.mem_buswayBothIns Side.left l h).2] at hd
    simp at hd
  · rw [(road.mem_cyclewayIns Side.left l h).2] at hd
    simp at hd
  · rw [(road.mem_cyclewayIns Side.right l h).2] at hd
    simp at hd
  · rw [(road.mem_buswayBothIns Side.right l h).2] at hd
    simp at hd
  · rw [(road.mem_buswayIns Side.right l h).2] at hd
    simp at hd
  · rw [(road.mem_parkingBothIns Side.right l h).1] at ht
    exact LaneType.noConfusion ht
  · rw [(road.mem_parkingIns Side.right l h).1] at ht
    exact LaneType.noConfusion ht
  · rcases road.mem_sidewalkIns Side.right l h with ⟨-, (⟨-, hf⟩ | ⟨hs, -⟩)⟩
    · rw [hd] at hf
      exact Option.noConfusion hf (fun hh => LaneDesignation.noConfusion hh)
    · rw [ht] at hs
      exact LaneType.noConfusion hs

theorem countP_replicate (p : Lane → Bool) (k : Nat) (a : Lane) :
    (List.replicate k a).countP p = if p a then k else 0 := by
  induction k with
  | zero => simp
  | succ k ih =>
    simp only [List.replicate_succ, List.countP_cons, ih]
    split <;> omega

/-- The two halves of the travel-lane count sum back to the whole (with
Python's negative list repetitions collapsing to zero). -/
theorem Road.half_toNat_add (road : Road) (n : Int) :
    (road.half n).toNat + (n - road.half n).toNat = n.toNat := by
  unfold Road.half truncHalf ceilHalf
  split
  · split <;> omega
  · omega

theorem Lane.isPlainMotorTravel_dir (d : Option Direction)
    (hd : d ≠ some Direction.both) :
    Lane.isPlainMotorTravel ⟨LaneType.travel, d, some LaneDesignation.motor⟩ = true := by
  simp [Lane.isPlainMotorTravel, hd]

/-- The lane-count section emits exactly `n.toNat` plain motor travel lanes
(the centre turn lane not among them). -/
theorem Road.countP_laneCountPhase (road : Road) (n : Int) :
    (road.laneCountPhase n).countP Lane.isPlainMotorTravel = n.toNat := by
  unfold Road.laneCountPhase
  split
  · rw [countP_replicate, if_pos (Lane.isPlainMotorTravel_dir _ (by simp))]
  · rw [List.countP_append, List.countP_append, countP_replicate, countP_replicate,
      if_pos (Lane.isPlainMotorTravel_dir _
        (by simp [Road.get_direction_ne_both road Side.left])),
      if_pos (Lane.isPlainMotorTravel_dir _
        (by simp [Road.get_direction_ne_both road Side.right]))]
    have hadd := road.half_toNat_add n
    split <;> simp [List.countP_cons, Lane.isPlainMotorTravel] <;> omega

theorem Road.countP_leftOverlay (road : Road) :
    road.leftOverlay.countP Lane.isPlainMotorTravel = 0 := by
  rw [List.countP_eq_zero]
  intro l hl
  have hnot := road.mem_overlay_not_motorTravel l (Or.inl hl)
  simp only [Lane.isPlainMotorTravel, decide_eq_true_eq]
  tauto

theorem Road.countP_rightOverlay (road : Road) :
    road.rightOverlay.countP Lane.isPlainMotorTravel = 0 := by
  rw [List.countP_eq_zero]
  intro l hl
  have hnot := road.mem_overlay_not_motorTravel l (Or.inr hl)
  simp only [Lane.isPlainMotorTravel, decide_eq_true_eq]
  tauto

/-- The number of plain motor travel lanes in the full `Road.parse` output is
the promoted travel lane number, clamped at zero. -/
theorem Road.countP_parse (road : Road) (n0 : Int)
    (h : road.travel_lane_number = some n0) :
    ∃ out, road.parse = some out
      ∧ out.countP Lane.isPlainMotorTravel
        = (if n0 = 1 ∧ road.oneway = false then 2 else n0).toNat := by
  refine ⟨_, road.parse_eq n0 h, ?_⟩
  rw [List.countP_append, List.countP_append, road.countP_leftOverlay,
    road.countP_rightOverlay, road.countP_laneCountPhase]
  omega

/-! ### Driving-side symmetry -/

/-- Swap `forward` and `backward`, leaving `both` and `none` unchanged. -/
def Direction.flip : Direction → Direction
  | Direction.forward => Direction.backward
  | Direction.backward => Direction.forward
  | d => d

/-- Flip a lane's direction, keeping its type and designation. -/
def Lane.flip (l : Lane) : Lane :=
  ⟨l.type_, l.direction.map Direction.flip, l.designation⟩

theorem get_direction_flip (tags : Tags) (side : Side) (b : Bool) :
    (Road.mk tags DrivingSide.left).get_direction side b
    = Direction.flip ((Road.mk tags DrivingSide.right).get_direction side b) := by
  cases side <;> cases b <;> rfl

theorem oneway_false_of_ne (tags : Tags) (ds : DrivingSide)
    (h : Tags.get tags "oneway" ≠ some "yes") :
    (Road.mk tags ds).oneway = false := by
  simp only [Road.oneway, decide_eq_false_iff_not]
  exact h

theorem Road.half_left (tags : Tags) (n : Int) :
    (Road.mk tags DrivingSide.left).half n = ceilHalf n := rfl

theorem Road.half_right (tags : Tags) (n : Int) :
    (Road.mk tags DrivingSide.right).half n = truncHalf n := rfl

theorem truncHalf_eq_ceilHalf (n : Int) (he : 2 ∣ n) : truncHalf n = ceilHalf n := by
  unfold truncHalf ceilHalf
  split <;> omega

theorem Road.laneCountPhase_flip (tags : Tags) (n : Int)
    (h : Tags.get tags "oneway" ≠ some "yes") (he : 2 ∣ n) :
    (Road.mk tags DrivingSide.left).laneCountPhase n
    = ((Road.mk tags DrivingSide.right).laneCountPhase n).map Lane.flip := by
  unfold Road.laneCountPhase
  simp only [oneway_false_of_ne tags _ h, Road.half_left, Road.half_right,
    truncHalf_eq_ceilHalf n he, Bool.false_eq_true, if_false,
    List.map_append, List.map_replicate]
  split <;> simp [Lane.flip, Direction.flip, get_direction_flip]

theorem Road.cyclewayIns_flip (tags : Tags) (side : Side)
    (h : Tags.get tags "oneway" ≠ some "yes") :
    (Road.mk tags DrivingSide.left).cyclewayIns side
    = ((Road.mk tags DrivingSide.right).cyclewayIns side).map Lane.flip := by
  unfold Road.cyclewayIns
  simp only [oneway_false_of_ne tags _ h, Bool.false_eq_true, if_false]
  split
  · simp [Lane.flip, get_direction_flip]
  · split
    · simp [Lane.flip, Direction.flip]
    · simp

theorem Road.buswayBothIns_flip (tags : Tags) (side : Side) :
    (Road.mk tags DrivingSide.left).buswayBothIns side
    = ((Road.mk tags DrivingSide.right).buswayBothIns side).map Lane.flip := by
  unfold Road.buswayBothIns
  split
  · simp [Lane.flip, get_direction_flip]
  · simp

theorem Road.buswayIns_flip (tags : Tags) (side : Side) :
    (Road.mk tags DrivingSide.left).buswayIns side
    = ((Road.mk tags DrivingSide.right).buswayIns side).map Lane.flip := by
  unfold Road.buswayIns
  split
  · simp [Lane.flip, get_direction_flip]
  · simp

theorem Road.parkingBothIns_flip (tags : Tags) (side : Side) :
    (Road.mk tags DrivingSide.left).parkingBothIns side
    = ((Road.mk tags DrivingSide.right).parkingBothIns side).map Lane.flip := by
  unfold Road.parkingBothIns
  split
  · simp [Lane.flip, get_direction_flip]
  · simp

theorem Road.parkingIns_flip (tags : Tags) (side : Side) :
    (Road.mk tags DrivingSide.left).parkingIns side
    = ((Road.mk tags DrivingSide.right).parkingIns side).map Lane.flip := by
  unfold Road.parkingIns
  split
  · simp [Lane.flip, get_direction_flip]
  · simp

theorem Road.is_rural_flip (tags : Tags) :
    (Road.mk tags DrivingSide.left).is_rural
    = (Road.mk tags DrivingSide.right).is_rural := rfl

theorem Road.sidewalkIns_flip (tags : Tags) (side : Side) :
    (Road.mk tags DrivingSide.left).sidewalkIns side
    = ((Road.mk tags DrivingSide.right).sidewalkIns side).map Lane.flip := by
  unfold Road.sidewalkIns
  rw [Road.is_rural_flip tags]
  split
  · simp [Lane.flip]
  · split
    · simp_all [Lane.flip]
    · split
      · simp_all [Lane.flip]
      · simp_all

theorem Road.leftOverlay_flip (tags : Tags)
    (h : Tags.get tags "oneway" ≠ some "yes") :
    (Road.mk tags DrivingSide.left).leftOverlay
    = ((Road.mk tags DrivingSide.right).leftOverlay).map Lane.flip := by
  unfold Road.leftOverlay
  rw [Road.sidewalkIns_flip, Road.parkingIns_flip, Road.parkingBothIns_flip,
    Road.buswayIns_flip, Road.buswayBothIns_flip, Road.cyclewayIns_flip tags _ h]
  simp [List.map_append]

theorem Road.rightOverlay_flip (tags : Tags)
    (h : Tags.get tags "oneway" ≠ some "yes") :
    (Road.mk tags DrivingSide.left).rightOverlay
    = ((Road.mk tags DrivingSide.right).rightOverlay).map Lane.flip := by
  unfold Road.rightOverlay
  rw [Road.sidewalkIns_flip, Road.parkingIns_flip, Road.parkingBothIns_flip,
    Road.buswayIns_flip, Road.buswayBothIns_flip, Road.cyclewayIns_flip tags _ h]
  simp [List.map_append]

/-! ### Sidewalk-outermost decomposition -/

/-- Everything `Road.parse` emits strictly inside the sidewalk section's
insertions, for travel lane number `n0` before promotion. -/
def Road.innerLanes (road : Road) (n0 : Int) : List Lane :=
  road.parkingIns Side.left ++ road.parkingBothIns Side.left
    ++ road.buswayIns Side.left ++ road.buswayBothIns Side.left
    ++ road.cyclewayIns Side.left
    ++ road.laneCountPhase (if n0 = 1 ∧ road.oneway = false then 2 else n0)
    ++ road.cyclewayIns Side.right ++ road.buswayBothIns Side.right
    ++ road.buswayIns Side.right ++ road.parkingBothIns Side.right
    ++ road.parkingIns Side.right

theorem Road.parse_eq_sidewalk (road : Road) (n0 : Int)
    (h : road.travel_lane_number = some n0) :
    road.parse
    = some (road.sidewalkIns Side.left ++ road.innerLanes n0
        ++ road.sidewalkIns Side.right) := by
  rw [road.parse_eq n0 h]
  unfold Road.leftOverlay Road.rightOverlay Road.innerLanes
  simp [List.append_assoc]

/-- No lane strictly inside the sidewalk insertions is foot-designated. -/
theorem Road.mem_innerLanes_not_foot (road : Road) (n0 : Int) (l : Lane)
    (h : l ∈ road.innerLanes n0) :
    l.designation ≠ some LaneDesignation.foot := by
  unfold Road.innerLanes at h
  simp only [List.mem_append] at h
  intro hf
  rcases h with (((((((((h | h) | h) | h) | h) | h) | h) | h) | h) | h) | h
  · rw [(road.mem_parkingIns Side.left l h).2] at hf
    simp at hf
  · rw [(road.mem_parkingBothIns Side.left l h).2] at hf
    simp at hf
  · rw [(road.mem_buswayIns Side.left l h).2] at hf
    simp at hf
  · rw [(road.mem_buswayBothIns Side.left l h).2] at hf
    simp at hf
  · rw [(road.mem_cyclewayIns Side.left l h).2] at hf
    simp at hf
  · rw [(road.mem_laneCountPhase _ l h).2] at hf
    simp at hf
  · rw [(road.mem_cyclewayIns Side.right l h).2] at hf
    simp at hf
  · rw [(road.mem_buswayBothIns Side.right l h).2] at hf
    simp at hf
  · rw [(road.mem_buswayIns Side.right l h).2] at hf
    simp at hf
  · rw [(road.mem_parkingBothIns Side.right l h).2] at hf
    simp at hf
  · rw [(road.mem_parkingIns Side.right l h).2] at hf
    simp at hf

theorem Road.length_sidewalkIns_le_one (road : Road) (side : Side) :
    (road.sidewalkIns side).length ≤ 1 := by
  unfold Road.sidewalkIns
  split
  · simp
  · split
    · simp
    · split <;> simp

/-- Any foot-designated lane in the output of `Road.parse` sits at one of the
two ends of the sequence. -/
theorem Road.foot_at_ends (road : Road) (n0 : Int)
    (h : road.travel_lane_number = some n0) (out : List Lane)
    (hout : road.parse = some out) (i : Nat) (hi : i < out.length)
    (hf : (out.get ⟨i, hi⟩).designation = some LaneDesignation.foot) :
    i = 0 ∨ i + 1 = out.length := by
  rw [road.parse_eq_sidewalk n0 h] at hout
  have hA := road.length_sidewalkIns_le_one Side.left
  have hB := road.length_sidewalkIns_le_one Side.right
  have hout2 : out
      = road.sidewalkIns Side.left
        ++ (road.innerLanes n0 ++ road.sidewalkIns Side.right) := by
    have := Option.some.inj hout
    rw [← this, List.append_assoc]
  subst hout2
  simp only [List.get_eq_getElem] at hf
  simp only [List.length_append] at hi
  by_cases h1 : i < (road.sidewalkIns Side.left).length
  · left
    omega
  · rw [List.getElem_append_right (by omega)] at hf
    by_cases h2 : i - (road.sidewalkIns Side.left).length < (road.innerLanes n0).length
    · exfalso
      rw [List.getElem_append_left h2] at hf
      exact road.mem_innerLanes_not_foot n0 _ (List.getElem_mem _) hf
    · right
      simp only [List.length_append]
      have h3 : i - (road.sidewalkIns Side.left).length
          - (road.innerLanes n0).length < (road.sidewalkIns Side.right).length := by
        simp only [List.length_append] at hf
        omega
      omega

/-! ### Counting motor travel lanes for arbitrary direction predicates -/

/-- Any count of motor travel lanes in the full output of `Road.parse` is
already decided by the lane-count section: the overlays contribute none. -/
theorem Road.countP_parse_motorPred (road : Road) (n0 : Int)
    (h : road.travel_lane_number = some n0) (p : Lane → Bool)
    (hp : ∀ l, p l = true
      → l.type_ = LaneType.travel ∧ l.designation = some LaneDesignation.motor) :
    ∃ out, road.parse = some out
      ∧ out.countP p
        = (road.laneCountPhase
            (if n0 = 1 ∧ road.oneway = false then 2 else n0)).countP p := by
  refine ⟨_, road.parse_eq n0 h, ?_⟩
  rw [List.countP_append, List.countP_append]
  have hL : (road.leftOverlay).countP p = 0 := by
    rw [List.countP_eq_zero]
    intro l hl hpl
    exact road.mem_overlay_not_motorTravel l (Or.inl hl) (hp l hpl)
  have hR : (road.rightOverlay).countP p = 0 := by
    rw [List.countP_eq_zero]
    intro l hl hpl
    exact road.mem_overlay_not_motorTravel l (Or.inr hl) (hp l hpl)
  rw [hL, hR]
  omega

theorem Road.get_direction_right_of_left (tags : Tags) :
    (Road.mk tags DrivingSide.right).get_direction Side.left = Direction.backward := rfl

theorem Road.get_direction_right_of_right (tags : Tags) :
    (Road.mk tags DrivingSide.right).get_direction Side.right = Direction.forward := rfl

theorem Road.get_direction_left_of_left (tags : Tags) :
    (Road.mk tags DrivingSide.left).get_direction Side.left = Direction.forward := rfl

theorem Road.get_direction_left_of_right (tags : Tags) :
    (Road.mk tags DrivingSide.left).get_direction Side.right = Direction.backward := rfl

theorem Road.travel_lane_number_flip (tags : Tags) :
    (Road.mk tags DrivingSide.left).travel_lane_number
    = (Road.mk tags DrivingSide.right).travel_lane_number := rfl

/-- Swapping the driving side from right to left flips every lane direction
pointwise, provided the road is not one-way and the promoted travel lane
number is even. -/
theorem Road.parse_flip (tags : Tags) (n0 : Int)
    (h : Tags.get tags "oneway" ≠ some "yes")
    (hn : (Road.mk tags DrivingSide.right).travel_lane_number = some n0)
    (he : 2 ∣ (if n0 = 1 then 2 else n0)) :
    (Road.mk tags DrivingSide.left).parse
    = ((Road.mk tags DrivingSide.right).parse).map (List.map Lane.flip) := by
  have hnL : (Road.mk tags DrivingSide.left).travel_lane_number = some n0 := by
    rw [Road.travel_lane_number_flip]
    exact hn
  rw [Road.parse_eq _ n0 hn, Road.parse_eq _ n0 hnL]
  rw [oneway_false_of_ne tags DrivingSide.left h,
    oneway_false_of_ne tags DrivingSide.right h]
  simp only [Option.map_some', eq_self_iff_true, and_true]
  rw [Road.leftOverlay_flip tags h, Road.rightOverlay_flip tags h,
    Road.laneCountPhase_flip tags _ h he]
  simp [List.map_append]

/-- The travel-lane section for a promoted count of `2` on a road that is not
one-way: one lane per side, each with its side's resolved direction, around
the optional centre turn lane. -/
theorem Road.laneCountPhase_two (tags : Tags) (ds : DrivingSide)
    (h : Tags.get tags "oneway" ≠ some "yes") :
    (Road.mk tags ds).laneCountPhase 2
    = [⟨LaneType.travel, some ((Road.mk tags ds).get_direction Side.left),
        some LaneDesignation.motor⟩]
      ++ (if Tags.get tags "centre_turn_lane" = some "yes" then
          [⟨LaneType.travel, some Direction.both, some LaneDesignation.motor⟩] else [])
      ++ [⟨LaneType.travel, some ((Road.mk tags ds).get_direction Side.right),
          some LaneDesignation.motor⟩] := by
  unfold Road.laneCountPhase
  rw [oneway_false_of_ne tags ds h]
  have hh : (Road.mk tags ds).half 2 = 1 := by
    cases ds <;> rfl
  rw [hh]
  norm_num

/-! ### Concrete lanes and lane predicates used in the claim statements -/

def motorLane (d : Direction) : Lane :=
  ⟨LaneType.travel, some d, some LaneDesignation.motor⟩

def footLane : Lane :=
  ⟨LaneType.travel, Option.none, some LaneDesignation.foot⟩

def shoulderLane : Lane :=
  ⟨LaneType.shoulder, Option.none, Option.none⟩

def bicycleLane (d : Direction) : Lane :=
  ⟨LaneType.travel, some d, some LaneDesignation.bicycle⟩

def busLane (d : Direction) : Lane :=
  ⟨LaneType.travel, some d, some LaneDesignation.bus⟩

def Lane.isParking (l : Lane) : Bool :=
  decide (l.type_ = LaneType.parking)

def Lane.isBicycle (l : Lane) : Bool :=
  decide (l.designation = some LaneDesignation.bicycle)

def Lane.isShoulder (l : Lane) : Bool :=
  decide (l.type_ = LaneType.shoulder)

def Lane.isBackwardMotor (l : Lane) : Bool :=
  decide (l.type_ = LaneType.travel ∧ l.direction = some Direction.backward
    ∧ l.designation = some LaneDesignation.motor)

def Lane.isForwardMotor (l : Lane) : Bool :=
  decide (l.type_ = LaneType.travel ∧ l.direction = some Direction.forward
    ∧ l.designation = some LaneDesignation.motor)

theorem Road.exists_tln_of_parse (road : Road) (out : List Lane)
    (h : road.parse = some out) : ∃ n0, road.travel_lane_number = some n0 := by
  unfold Road.parse at h
  cases htln : road.travel_lane_number with
  | none =>
    rw [htln] at h
    simp at h
  | some n0 => exact ⟨n0, rfl⟩

theorem Road.travel_lane_number_of_tag (road : Road) (s : String) (k : Int)
    (hs : road.tags.get "lanes" = some s) (hne : s ≠ "") (hk : pyInt? s = some k) :
    road.travel_lane_number = some (k - road.get_extra_lanes) := by
  unfold Road.travel_lane_number
  rw [hs]
  simp only [if_neg hne, hk]

theorem Road.travel_lane_number_default (road : Road)
    (hs : road.tags.get "lanes" = Option.none) :
    road.travel_lane_number = some 2 := by
  unfold Road.travel_lane_number
  rw [hs]

/-! ### Claim C1 -/

/-- C1, counterexample: for tags `{"oneway": "yes", "lanes": "3"}` under
right-hand traffic, `Road.parse` returns three `Forward` motor travel lanes
and nothing else — the output has 3 elements, not 5, and contains no
shoulder, because `is_rural` requires the `oneway` tag to be absent and the
`lanes` tag to be absent or `"2"`. -/
theorem c1_counterexample :
    (Road.mk [("oneway", "yes"), ("lanes", "3")] DrivingSide.right).parse
      = some [motorLane Direction.forward, motorLane Direction.forward,
          motorLane Direction.forward]
    ∧ [motorLane Direction.forward, motorLane Direction.forward,
        motorLane Direction.forward].length ≠ 5
    ∧ ([motorLane Direction.forward, motorLane Direction.forward,
        motorLane Direction.forward].countP Lane.isShoulder) = 0 := by
  decide

/-- C1 (amended): for the input tags `{"oneway": "yes", "lanes": "3"}` with
driving side `Right`, `Road.parse` returns exactly three `Forward` motor
travel lanes, no centre-turn lane, and no shoulder lanes: the rural-shoulder
heuristic does not fire because the `lanes` tag is present with a value other
than `"2"` and the `oneway` tag is present, so the output has 3 elements. -/
theorem c1_amended_parse :
    (Road.mk [("oneway", "yes"), ("lanes", "3")] DrivingSide.right).parse
      = some [motorLane Direction.forward, motorLane Direction.forward,
          motorLane Direction.forward] := by
  decide

/-! ### Claim C2 -/

/-- C2, counterexample: with both per-side bus lane tags present and
`lanes=4`, the claim predicts `4 - 1 - 1 = 2` motor travel lanes, but the
code combines the two per-side checks with `or` and subtracts only `1`,
emitting 3 motor travel lanes. -/
theorem c2_counterexample :
    (Road.mk [("busway:left", "lane"), ("busway:right", "lane"), ("lanes", "4")]
        DrivingSide.right).parse
      = some [busLane Direction.backward, motorLane Direction.backward,
          motorLane Direction.forward, motorLane Direction.forward,
          busLane Direction.forward]
    ∧ ([busLane Direction.backward, motorLane Direction.backward,
        motorLane Direction.forward, motorLane Direction.forward,
        busLane Direction.forward].countP Lane.isPlainMotorTravel) = 3
    ∧ (3 : Nat) ≠ 4 - 1 - 1 := by
  decide

/-- C2 (amended): when the `lanes` tag holds a numeric value `k`, the number
of plain motor travel lanes `Road.parse` emits (centre turn lane and all
overlay lanes excluded) is `k` minus the bus-claimed lanes — `2` when a
both-sides bus-lane tag is present, plus `1` when at least one per-side
bus-lane tag is present (not 1 per side) — promoted to `2` when that
difference is `1` on a road that is not one-way, and clamped at zero from
below (the emitted count is never negative, though the intermediate
difference may be).  When the `lanes` tag is absent the default of `2` is
used without any bus-lane subtraction. -/
theorem c2_amended :
    (∀ (tags : Tags) (ds : DrivingSide) (s : String) (k : Int),
      Tags.get tags "lanes" = some s → s ≠ "" → pyInt? s = some k →
      ∃ out, (Road.mk tags ds).parse = some out
        ∧ out.countP Lane.isPlainMotorTravel
          = (if k - (Road.mk tags ds).get_extra_lanes = 1
                ∧ (Road.mk tags ds).oneway = false then 2
             else k - (Road.mk tags ds).get_extra_lanes).toNat)
    ∧ (∀ (tags : Tags) (ds : DrivingSide),
      Tags.get tags "lanes" = Option.none →
      ∃ out, (Road.mk tags ds).parse = some out
        ∧ out.countP Lane.isPlainMotorTravel = 2) := by
  constructor
  · intro tags ds s k hs hne hk
    exact (Road.mk tags ds).countP_parse _
      ((Road.mk tags ds).travel_lane_number_of_tag s k hs hne hk)
  · intro tags ds hs
    obtain ⟨out, hout, hcount⟩ := (Road.mk tags ds).countP_parse _
      ((Road.mk tags ds).travel_lane_number_default hs)
    refine ⟨out, hout, ?_⟩
    rw [hcount]
    split <;> simp_all

/-- Witness for C2 (amended), at `{"lanes": "3", "busway": "lane"}` under
right-hand traffic and at `{}` (absent `lanes` tag). -/
theorem c2_witness :
    (∃ out, (Road.mk [("lanes", "3"), ("busway", "lane")] DrivingSide.right).parse
        = some out
      ∧ out.countP Lane.isPlainMotorTravel
        = (if (3 : Int) - (Road.mk [("lanes", "3"), ("busway", "lane")]
              DrivingSide.right).get_extra_lanes = 1
            ∧ (Road.mk [("lanes", "3"), ("busway", "lane")]
              DrivingSide.right).oneway = false then 2
           else (3 : Int) - (Road.mk [("lanes", "3"), ("busway", "lane")]
              DrivingSide.right).get_extra_lanes).toNat)
    ∧ (∃ out, (Road.mk [] DrivingSide.left).parse = some out
      ∧ out.countP Lane.isPlainMotorTravel = 2) :=
  ⟨c2_amended.1 [("lanes", "3"), ("busway", "lane")] DrivingSide.right "3" 3
    (by decide) (by decide) (by decide),
   c2_amended.2 [] DrivingSide.left (by decide)⟩

/-! ### Claim C3 -/

theorem Road.sidewalkIns_both (road : Road) (side : Side)
    (h : road.tags.get "sidewalk" = some "both") :
    road.sidewalkIns side = [footLane] := by
  unfold Road.sidewalkIns footLane
  rw [if_pos h]

/-- C3, counterexample: for `{"lanes": "4", "sidewalk": "both"}` under
right-hand traffic, the two boundary foot lanes carry no direction at all
(`None`), not direction `Both` as claimed — `add_both_lanes` stores `None`
for foot-designated travel lanes. -/
theorem c3_counterexample :
    (Road.mk [("lanes", "4"), ("sidewalk", "both")] DrivingSide.right).parse
      = some [footLane, motorLane Direction.backward, motorLane Direction.backward,
          motorLane Direction.forward, motorLane Direction.forward, footLane]
    ∧ footLane.direction ≠ some Direction.both := by
  decide

/-- C3 (amended): for every tag set containing `sidewalk=both`, the first and
last elements of `Road.parse`'s output are foot-designated travel lanes with
no direction (`None`, not `Both`); in particular, for
`{"lanes": "4", "sidewalk": "both"}` with driving side `Right` the output is
a directionless foot lane, two `Backward` motor travel lanes, two `Forward`
motor travel lanes, and a directionless foot lane. -/
theorem c3_amended :
    (∀ (tags : Tags) (ds : DrivingSide) (out : List Lane),
      Tags.get tags "sidewalk" = some "both" →
      (Road.mk tags ds).parse = some out →
      out.head? = some footLane ∧ out.getLast? = some footLane
        ∧ footLane.direction = Option.none)
    ∧ (Road.mk [("lanes", "4"), ("sidewalk", "both")] DrivingSide.right).parse
      = some [footLane, motorLane Direction.backward, motorLane Direction.backward,
          motorLane Direction.forward, motorLane Direction.forward, footLane] := by
  constructor
  · intro tags ds out hb hout
    obtain ⟨n0, htln⟩ := (Road.mk tags ds).exists_tln_of_parse out hout
    rw [(Road.mk tags ds).parse_eq_sidewalk n0 htln] at hout
    have hout2 := Option.some.inj hout
    rw [(Road.mk tags ds).sidewalkIns_both Side.left hb,
      (Road.mk tags ds).sidewalkIns_both Side.right hb] at hout2
    subst hout2
    refine ⟨?_, ?_, rfl⟩
    · rfl
    · exact List.getLast?_concat _
  · decide

/-- Witness for C3 (amended), at `{"sidewalk": "both"}` under left-hand
traffic. -/
theorem c3_witness :
    [footLane, motorLane Direction.forward, motorLane Direction.backward,
        footLane].head? = some footLane
    ∧ [footLane, motorLane Direction.forward, motorLane Direction.backward,
        footLane].getLast? = some footLane
    ∧ footLane.direction = Option.none :=
  c3_amended.1 [("sidewalk", "both")] DrivingSide.left
    [footLane, motorLane Direction.forward, motorLane Direction.backward, footLane]
    (by decide) (by decide)

/-! ### Claim C4 -/

/-- C4, counterexample: for the non-one-way tag set `{"lanes": "3"}` the
right-hand output is `[Backward, Forward, Forward]` while the left-hand
output is `[Forward, Forward, Backward]`, which is not the pointwise
direction flip `[Forward, Backward, Backward]` of the former: with an odd
lane count the extra lane changes sides, so the claimed pointwise symmetry
fails. -/
theorem c4_counterexample :
    (Road.mk [("lanes", "3")] DrivingSide.right).parse
      = some [motorLane Direction.backward, motorLane Direction.forward,
          motorLane Direction.forward]
    ∧ (Road.mk [("lanes", "3")] DrivingSide.left).parse
      = some [motorLane Direction.forward, motorLane Direction.forward,
          motorLane Direction.backward]
    ∧ [motorLane Direction.forward, motorLane Direction.forward,
        motorLane Direction.backward]
      ≠ List.map Lane.flip [motorLane Direction.backward, motorLane Direction.forward,
          motorLane Direction.forward] := by
  decide

/-- C4 (amended): for every tag set without `oneway=yes` whose promoted
travel lane number is even, running `Road.parse` with driving side `Left`
instead of `Right` yields the pointwise flip of the output: the same length,
at each position the same type and designation, with `Forward` and
`Backward` swapped and `Both`/`None` directions unchanged (this is
`Lane.flip` mapped over the sequence).  One-way roads (all lanes forced
`Forward` on both driving sides) and odd lane counts (the extra lane changes
sides) are genuine exceptions. -/
theorem c4_amended (tags : Tags) (n0 : Int)
    (h : Tags.get tags "oneway" ≠ some "yes")
    (hn : (Road.mk tags DrivingSide.right).travel_lane_number = some n0)
    (he : 2 ∣ (if n0 = 1 then 2 else n0)) :
    ∃ outR outL,
      (Road.mk tags DrivingSide.right).parse = some outR
      ∧ (Road.mk tags DrivingSide.left).parse = some outL
      ∧ outL = outR.map Lane.flip
      ∧ outL.length = outR.length := by
  have hR := Road.parse_eq (Road.mk tags DrivingSide.right) n0 hn
  have hflip := Road.parse_flip tags n0 h hn he
  refine ⟨_, _, hR, ?_, rfl, by simp⟩
  rw [hflip, hR]
  rfl

/-- Witness for C4 (amended), at `{"lanes": "4"}`. -/
theorem c4_witness :
    ∃ outR outL,
      (Road.mk [("lanes", "4")] DrivingSide.right).parse = some outR
      ∧ (Road.mk [("lanes", "4")] DrivingSide.left).parse = some outL
      ∧ outL = outR.map Lane.flip
      ∧ outL.length = outR.length :=
  c4_amended [("lanes", "4")] 4 (by decide) (by decide) (by decide)

/-! ### Claim C5 -/

/-- C5: for a non-one-way tag set whose promoted travel lane number is the
(nonnegative) count `n`, the lane-count section emits `⌊n/2⌋` lanes
(`⌈n/2⌉` under left-hand traffic) with the direction resolved for the left
side, then exactly one `Both`-direction travel lane iff the
`centre_turn_lane` tag is `"yes"`, then the remaining `n - ⌊n/2⌋` (resp.
`n - ⌈n/2⌉`) lanes with the direction resolved for the right side. -/
theorem c5_split (tags : Tags) (ds : DrivingSide) (n0 n : Int)
    (h : Tags.get tags "oneway" ≠ some "yes")
    (hn : (Road.mk tags ds).travel_lane_number = some n0)
    (hpromote : n = if n0 = 1 then 2 else n0)
    (hpos : 0 ≤ n) :
    (Road.mk tags ds).laneCountPhase n
    = List.replicate
        (if ds = DrivingSide.right then n.toNat / 2 else (n.toNat + 1) / 2)
        ⟨LaneType.travel, some ((Road.mk tags ds).get_direction Side.left),
          some LaneDesignation.motor⟩
      ++ (if Tags.get tags "centre_turn_lane" = some "yes" then
          [⟨LaneType.travel, some Direction.both, some LaneDesignation.motor⟩] else [])
      ++ List.replicate
        (n.toNat - (if ds = DrivingSide.right then n.toNat / 2 else (n.toNat + 1) / 2))
        ⟨LaneType.travel, some ((Road.mk tags ds).get_direction Side.right),
          some LaneDesignation.motor⟩ := by
  unfold Road.laneCountPhase
  rw [oneway_false_of_ne tags ds h]
  cases ds
  · have h1 : ((Road.mk tags DrivingSide.right).half n).toNat = n.toNat / 2 := by
      rw [Road.half_right]
      unfold truncHalf
      rw [if_pos hpos]
      omega
    have h2 : (n - (Road.mk tags DrivingSide.right).half n).toNat
        = n.toNat - n.toNat / 2 := by
      rw [Road.half_right]
      unfold truncHalf
      rw [if_pos hpos]
      omega
    rw [h1, h2]
    simp
  · have h1 : ((Road.mk tags DrivingSide.left).half n).toNat = (n.toNat + 1) / 2 := by
      rw [Road.half_left]
      unfold ceilHalf
      omega
    have h2 : (n - (Road.mk tags DrivingSide.left).half n).toNat
        = n.toNat - (n.toNat + 1) / 2 := by
      rw [Road.half_left]
      unfold ceilHalf
      omega
    rw [h1, h2]
    simp

/-- Witness for C5, at `{"lanes": "5", "centre_turn_lane": "yes"}` under
right-hand traffic: 2 backward lanes, the centre turn lane, 3 forward
lanes. -/
theorem c5_witness :
    (Road.mk [("lanes", "5"), ("centre_turn_lane", "yes")]
        DrivingSide.right).laneCountPhase 5
    = List.replicate 2 (motorLane Direction.backward)
      ++ [motorLane Direction.both]
      ++ List.replicate 3 (motorLane Direction.forward) := by
  have h := c5_split [("lanes", "5"), ("centre_turn_lane", "yes")]
    DrivingSide.right 5 5 (by decide) (by decide) (by decide) (by decide)
  rw [h]
  decide

/-! ### Claim C6 -/

theorem Road.countP_phase_two_dir (tags : Tags) (ds : DrivingSide)
    (h : Tags.get tags "oneway" ≠ some "yes") :
    ((Road.mk tags ds).laneCountPhase 2).countP Lane.isBackwardMotor = 1
    ∧ ((Road.mk tags ds).laneCountPhase 2).countP Lane.isForwardMotor = 1 := by
  rw [Road.laneCountPhase_two tags ds h]
  cases ds
  · rw [Road.get_direction_right_of_left, Road.get_direction_right_of_right]
    constructor <;> split <;> decide
  · rw [Road.get_direction_left_of_left, Road.get_direction_left_of_right]
    constructor <;> split <;> decide

/-- C6: whenever the travel lane number derived from the tags is `1` and the
road is not one-way, `Road.parse` promotes the count to `2` and emits exactly
one `Backward` and one `Forward` motor travel lane, whereas the one-way road
`{"oneway": "yes", "lanes": "1"}` is not promoted and yields exactly one
`Forward` motor travel lane (under either driving side). -/
theorem c6_promotion :
    (∀ (tags : Tags) (ds : DrivingSide),
      (Road.mk tags ds).travel_lane_number = some 1 →
      Tags.get tags "oneway" ≠ some "yes" →
      ∃ out, (Road.mk tags ds).parse = some out
        ∧ out.countP Lane.isBackwardMotor = 1
        ∧ out.countP Lane.isForwardMotor = 1)
    ∧ (∀ ds, (Road.mk [("oneway", "yes"), ("lanes", "1")] ds).parse
        = some [motorLane Direction.forward]) := by
  constructor
  · intro tags ds h1 h2
    have hn2 : (if (1 : Int) = 1 ∧ (Road.mk tags ds).oneway = false then 2 else 1)
        = (2 : Int) := by
      rw [oneway_false_of_ne tags ds h2]
      simp
    obtain ⟨out, hout, hcb⟩ := (Road.mk tags ds).countP_parse_motorPred 1 h1
      Lane.isBackwardMotor
      (by
        intro l hl
        simp only [Lane.isBackwardMotor, decide_eq_true_eq] at hl
        exact ⟨hl.1, hl.2.2⟩)
    obtain ⟨out2, hout2, hcf⟩ := (Road.mk tags ds).countP_parse_motorPred 1 h1
      Lane.isForwardMotor
      (by
        intro l hl
        simp only [Lane.isForwardMotor, decide_eq_true_eq] at hl
        exact ⟨hl.1, hl.2.2⟩)
    rw [hout] at hout2
    have hsame := Option.some.inj hout2
    subst hsame
    rw [hn2] at hcb hcf
    refine ⟨out, hout, ?_, ?_⟩
    · rw [hcb]
      exact (Road.countP_phase_two_dir tags ds h2).1
    · rw [hcf]
      exact (Road.countP_phase_two_dir tags ds h2).2
  · intro ds
    cases ds <;> decide

/-- Witness for C6, at `{"lanes": "1"}` under right-hand traffic. -/
theorem c6_witness :
    ∃ out, (Road.mk [("lanes", "1")] DrivingSide.right).parse = some out
      ∧ out.countP Lane.isBackwardMotor = 1
      ∧ out.countP Lane.isForwardMotor = 1 :=
  c6_promotion.1 [("lanes", "1")] DrivingSide.right (by decide) (by decide)

/-! ### Claim C7 -/

theorem Road.filter_bicycle_cyclewayIns (road : Road) (side : Side) :
    (road.cyclewayIns side).filter Lane.isBicycle = road.cyclewayIns side := by
  rw [List.filter_eq_self]
  intro l hl
  simp [Lane.isBicycle, (road.mem_cyclewayIns side l hl).2]

/-- The bicycle-designated lanes of the full output are exactly the cycleway
section's insertions, left one first. -/
theorem Road.filter_bicycle_parse (road : Road) (n0 : Int)
    (h : road.travel_lane_number = some n0) :
    ∃ out, road.parse = some out
      ∧ out.filter Lane.isBicycle
        = road.cyclewayIns Side.left ++ road.cyclewayIns Side.right := by
  refine ⟨_, road.parse_eq n0 h, ?_⟩
  unfold Road.leftOverlay Road.rightOverlay
  simp only [List.filter_append]
  have hnil : ∀ (L : List Lane),
      (∀ l ∈ L, l.designation ≠ some LaneDesignation.bicycle) →
      L.filter Lane.isBicycle = [] := by
    intro L hL
    rw [List.filter_eq_nil_iff]
    intro l hl
    simp [Lane.isBicycle, hL l hl]
  have hsw : ∀ side, (road.sidewalkIns side).filter Lane.isBicycle = [] := by
    intro side
    refine hnil _ (fun l hl => ?_)
    rcases road.mem_sidewalkIns side l hl with ⟨-, (⟨-, hd⟩ | ⟨-, hd⟩)⟩ <;>
      simp [hd]
  have hpk : ∀ side, (road.parkingIns side).filter Lane.isBicycle = [] :=
    fun side => hnil _ (fun l hl => by simp [(road.mem_parkingIns side l hl).2])
  have hpkb : ∀ side, (road.parkingBothIns side).filter Lane.isBicycle = [] :=
    fun side => hnil _ (fun l hl => by simp [(road.mem_parkingBothIns side l hl).2])
  have hbw : ∀ side, (road.buswayIns side).filter Lane.isBicycle = [] :=
    fun side => hnil _ (fun l hl => by simp [(road.mem_buswayIns side l hl).2])
  have hbwb : ∀ side, (road.buswayBothIns side).filter Lane.isBicycle = [] :=
    fun side => hnil _ (fun l hl => by simp [(road.mem_buswayBothIns side l hl).2])
  have hph : (road.laneCountPhase
      (if n0 = 1 ∧ road.oneway = false then 2 else n0)).filter Lane.isBicycle = [] :=
    hnil _ (fun l hl => by simp [(road.mem_laneCountPhase _ l hl).2])
  rw [hsw Side.left, hsw Side.right, hpk Side.left, hpk Side.right,
    hpkb Side.left, hpkb Side.right, hbw Side.left, hbw Side.right,
    hbwb Side.left, hbwb Side.right, hph,
    road.filter_bicycle_cyclewayIns Side.left,
    road.filter_bicycle_cyclewayIns Side.right]
  simp

/-- C7: for each side independently, `cycleway:<side>=lane` contributes one
bicycle-designated travel lane at that side whose direction is the side's
resolved direction — forced to `Forward` on one-way roads — and
`cycleway:<side>=track` (or `opposite_track`) contributes one
`Both`-direction bicycle lane there; the bicycle lanes of the whole output
are exactly these, in left-to-right order.  For
`{"cycleway:right": "track"}` under right-hand traffic the cycleway section
leaves the two default travel lanes unchanged and appends one
`Both`-direction cycleway lane at the right boundary (the full output then
adds the rural shoulders outside). -/
theorem c7_cycleways :
    (∀ (tags : Tags) (ds : DrivingSide) (out : List Lane),
      (Road.mk tags ds).parse = some out →
      out.filter Lane.isBicycle
      = (if Tags.get tags "cycleway:left" = some "lane" then
          [⟨LaneType.travel,
            some (if (Road.mk tags ds).oneway then Direction.forward
              else (Road.mk tags ds).get_direction Side.left),
            some LaneDesignation.bicycle⟩]
        else if Tags.get tags "cycleway:left" = some "track"
            ∨ Tags.get tags "cycleway:left" = some "opposite_track" then
          [⟨LaneType.travel, some Direction.both, some LaneDesignation.bicycle⟩]
        else [])
        ++ (if Tags.get tags "cycleway:right" = some "lane" then
          [⟨LaneType.travel,
            some (if (Road.mk tags ds).oneway then Direction.forward
              else (Road.mk tags ds).get_direction Side.right),
            some LaneDesignation.bicycle⟩]
        else if Tags.get tags "cycleway:right" = some "track"
            ∨ Tags.get tags "cycleway:right" = some "opposite_track" then
          [⟨LaneType.travel, some Direction.both, some LaneDesignation.bicycle⟩]
        else []))
    ∧ (Road.mk [("cycleway:right", "track")] DrivingSide.right).cyclewayPhase
        [motorLane Direction.backward, motorLane Direction.forward]
      = [motorLane Direction.backward, motorLane Direction.forward,
          bicycleLane Direction.both]
    ∧ (Road.mk [("cycleway:right", "track")] DrivingSide.right).parse
      = some [shoulderLane, motorLane Direction.backward, motorLane Direction.forward,
          bicycleLane Direction.both, shoulderLane] := by
  refine ⟨?_, by decide, by decide⟩
  intro tags ds out hout
  obtain ⟨n0, htln⟩ := (Road.mk tags ds).exists_tln_of_parse out hout
  obtain ⟨out2, hout2, hfil⟩ := (Road.mk tags ds).filter_bicycle_parse n0 htln
  rw [hout] at hout2
  rw [← Option.some.inj hout2] at hfil
  exact hfil

/-- Witness for C7, at `{"cycleway:left": "lane", "oneway": "yes"}` under
right-hand traffic: the left cycleway lane is forced `Forward` on the
one-way road. -/
theorem c7_witness :
    [bicycleLane Direction.forward, motorLane Direction.forward,
        motorLane Direction.forward].filter Lane.isBicycle
    = (if Tags.get [("cycleway:left", "lane"), ("oneway", "yes")] "cycleway:left"
          = some "lane" then
        [⟨LaneType.travel,
          some (if (Road.mk [("cycleway:left", "lane"), ("oneway", "yes")]
              DrivingSide.right).oneway then Direction.forward
            else (Road.mk [("cycleway:left", "lane"), ("oneway", "yes")]
              DrivingSide.right).get_direction Side.left),
          some LaneDesignation.bicycle⟩]
      else if Tags.get [("cycleway:left", "lane"), ("oneway", "yes")] "cycleway:left"
            = some "track"
          ∨ Tags.get [("cycleway:left", "lane"), ("oneway", "yes")] "cycleway:left"
            = some "opposite_track" then
        [⟨LaneType.travel, some Direction.both, some LaneDesignation.bicycle⟩]
      else [])
      ++ (if Tags.get [("cycleway:left", "lane"), ("oneway", "yes")] "cycleway:right"
            = some "lane" then
        [⟨LaneType.travel,
          some (if (Road.mk [("cycleway:left", "lane"), ("oneway", "yes")]
              DrivingSide.right).oneway then Direction.forward
            else (Road.mk [("cycleway:left", "lane"), ("oneway", "yes")]
              DrivingSide.right).get_direction Side.right),
          some LaneDesignation.bicycle⟩]
      else if Tags.get [("cycleway:left", "lane"), ("oneway", "yes")] "cycleway:right"
            = some "track"
          ∨ Tags.get [("cycleway:left", "lane"), ("oneway", "yes")] "cycleway:right"
            = some "opposite_track" then
        [⟨LaneType.travel, some Direction.both, some LaneDesignation.bicycle⟩]
      else []) :=
  c7_cycleways.1 [("cycleway:left", "lane"), ("oneway", "yes")] DrivingSide.right
    [bicycleLane Direction.forward, motorLane Direction.forward,
      motorLane Direction.forward] (by decide)

/-! ### Claim C8 -/

theorem Road.filter_parking_parkingIns (road : Road) (side : Side) :
    (road.parkingIns side).filter Lane.isParking = road.parkingIns side := by
  rw [List.filter_eq_self]
  intro l hl
  simp [Lane.isParking, (road.mem_parkingIns side l hl).1]

theorem Road.filter_parking_parkingBothIns (road : Road) (side : Side) :
    (road.parkingBothIns side).filter Lane.isParking = road.parkingBothIns side := by
  rw [List.filter_eq_self]
  intro l hl
  simp [Lane.isParking, (road.mem_parkingBothIns side l hl).1]

/-- The parking lanes of the full output are exactly the parking section's
insertions, in left-to-right order. -/
theorem Road.filter_parking_parse (road : Road) (n0 : Int)
    (h : road.travel_lane_number = some n0) :
    ∃ out, road.parse = some out
      ∧ out.filter Lane.isParking
        = road.parkingIns Side.left ++ road.parkingBothIns Side.left
          ++ road.parkingBothIns Side.right ++ road.parkingIns Side.right := by
  refine ⟨_, road.parse_eq n0 h, ?_⟩
  unfold Road.leftOverlay Road.rightOverlay
  simp only [List.filter_append]
  have hnil : ∀ (L : List Lane),
      (∀ l ∈ L, l.type_ ≠ LaneType.parking) →
      L.filter Lane.isParking = [] := by
    intro L hL
    rw [List.filter_eq_nil_iff]
    intro l hl
    simp [Lane.isParking, hL l hl]
  have hsw : ∀ side, (road.sidewalkIns side).filter Lane.isParking = [] := by
    intro side
    refine hnil _ (fun l hl => ?_)
    rcases road.mem_sidewalkIns side l hl with ⟨-, (⟨ht, -⟩ | ⟨ht, -⟩)⟩ <;>
      simp [ht]
  have hbw : ∀ side, (road.buswayIns side).filter Lane.isParking = [] :=
    fun side => hnil _ (fun l hl => by simp [(road.mem_buswayIns side l hl).1])
  have hbwb : ∀ side, (road.buswayBothIns side).filter Lane.isParking = [] :=
    fun side => hnil _ (fun l hl => by simp [(road.mem_buswayBothIns side l hl).1])
  have hcw : ∀ side, (road.cyclewayIns side).filter Lane.isParking = [] :=
    fun side => hnil _ (fun l hl => by simp [(road.mem_cyclewayIns side l hl).1])
  have hph : (road.laneCountPhase
      (if n0 = 1 ∧ road.oneway = false then 2 else n0)).filter Lane.isParking = [] :=
    hnil _ (fun l hl => by simp [(road.mem_laneCountPhase _ l hl).1])
  rw [hsw Side.left, hsw Side.right, hbw Side.left, hbw Side.right,
    hbwb Side.left, hbwb Side.right, hcw Side.left, hcw Side.right, hph,
    road.filter_parking_parkingIns Side.left,
    road.filter_parking_parkingIns Side.right,
    road.filter_parking_parkingBothIns Side.left,
    road.filter_parking_parkingBothIns Side.right]
  simp

/-- C8, counterexample: `parking:lane:both=diagonal` inserts no parking lane
at all — the both-sides check in the code triggers only on the exact value
`"parallel"` — while the claim requires one parking lane at each boundary. -/
theorem c8_counterexample :
    (Road.mk [("parking:lane:both", "diagonal")] DrivingSide.right).parse
      = some [shoulderLane, motorLane Direction.backward, motorLane Direction.forward,
          shoulderLane]
    ∧ ([shoulderLane, motorLane Direction.backward, motorLane Direction.forward,
        shoulderLane].countP Lane.isParking) = 0 := by
  decide

/-- C8 (amended): a both-sides parking tag inserts one parking lane at each
boundary only when its value is exactly `parallel` (a `diagonal` both-sides
value inserts nothing); a per-side parking tag with value `parallel` or
`diagonal` inserts one parking lane at that boundary only; a `perpendicular`
value or an absent tag inserts no parking lane.  The parking lanes of the
output are exactly these, in left-to-right order. -/
theorem c8_amended :
    ∀ (tags : Tags) (ds : DrivingSide) (out : List Lane),
      (Road.mk tags ds).parse = some out →
      out.filter Lane.isParking
      = (if Tags.get tags "parking:lane:left" = some "parallel"
            ∨ Tags.get tags "parking:lane:left" = some "diagonal" then
          [⟨LaneType.parking, some ((Road.mk tags ds).get_direction Side.left),
            some LaneDesignation.motor⟩]
        else [])
        ++ (if Tags.get tags "parking:lane:both" = some "parallel" then
          [⟨LaneType.parking, some ((Road.mk tags ds).get_direction Side.left),
            some LaneDesignation.motor⟩]
        else [])
        ++ (if Tags.get tags "parking:lane:both" = some "parallel" then
          [⟨LaneType.parking, some ((Road.mk tags ds).get_direction Side.right),
            some LaneDesignation.motor⟩]
        else [])
        ++ (if Tags.get tags "parking:lane:right" = some "parallel"
            ∨ Tags.get tags "parking:lane:right" = some "diagonal" then
          [⟨LaneType.parking, some ((Road.mk tags ds).get_direction Side.right),
            some LaneDesignation.motor⟩]
        else []) := by
  intro tags ds out hout
  obtain ⟨n0, htln⟩ := (Road.mk tags ds).exists_tln_of_parse out hout
  obtain ⟨out2, hout2, hfil⟩ := (Road.mk tags ds).filter_parking_parse n0 htln
  rw [hout] at hout2
  rw [← Option.some.inj hout2] at hfil
  exact hfil

/-- Witness for C8 (amended), at
`{"parking:lane:left": "diagonal", "parking:lane:both": "diagonal"}` under
right-hand traffic: only the per-side diagonal tag contributes a lane. -/
theorem c8_witness :
    [shoulderLane, ⟨LaneType.parking, some Direction.backward, some LaneDesignation.motor⟩,
      motorLane Direction.backward, motorLane Direction.forward,
      shoulderLane].filter Lane.isParking
    = (if Tags.get [("parking:lane:left", "diagonal"), ("parking:lane:both", "diagonal")]
          "parking:lane:left" = some "parallel"
        ∨ Tags.get [("parking:lane:left", "diagonal"), ("parking:lane:both", "diagonal")]
          "parking:lane:left" = some "diagonal" then
        [⟨LaneType.parking,
          some ((Road.mk [("parking:lane:left", "diagonal"),
            ("parking:lane:both", "diagonal")] DrivingSide.right).get_direction Side.left),
          some LaneDesignation.motor⟩]
      else [])
      ++ (if Tags.get [("parking:lane:left", "diagonal"), ("parking:lane:both", "diagonal")]
            "parking:lane:both" = some "parallel" then
        [⟨LaneType.parking,
          some ((Road.mk [("parking:lane:left", "diagonal"),
            ("parking:lane:both", "diagonal")] DrivingSide.right).get_direction Side.left),
          some LaneDesignation.motor⟩]
      else [])
      ++ (if Tags.get [("parking:lane:left", "diagonal"), ("parking:lane:both", "diagonal")]
            "parking:lane:both" = some "parallel" then
        [⟨LaneType.parking,
          some ((Road.mk [("parking:lane:left", "diagonal"),
            ("parking:lane:both", "diagonal")] DrivingSide.right).get_direction Side.right),
          some LaneDesignation.motor⟩]
      else [])
      ++ (if Tags.get [("parking:lane:left", "diagonal"), ("parking:lane:both", "diagonal")]
            "parking:lane:right" = some "parallel"
          ∨ Tags.get [("parking:lane:left", "diagonal"), ("parking:lane:both", "diagonal")]
            "parking:lane:right" = some "diagonal" then
        [⟨LaneType.parking,
          some ((Road.mk [("parking:lane:left", "diagonal"),
            ("parking:lane:both", "diagonal")] DrivingSide.right).get_direction Side.right),
          some LaneDesignation.motor⟩]
      else []) :=
  c8_amended [("parking:lane:left", "diagonal"), ("parking:lane:both", "diagonal")]
    DrivingSide.right
    [shoulderLane, ⟨LaneType.parking, some Direction.backward, some LaneDesignation.motor⟩,
      motorLane Direction.backward, motorLane Direction.forward,
      shoulderLane] (by decide)

/-! ### Claim C9 -/

theorem Road.sidewalk_both_ends (road : Road) (out : List Lane)
    (hb : road.tags.get "sidewalk" = some "both")
    (hout : road.parse = some out) :
    out.head? = some footLane ∧ out.getLast? = some footLane := by
  obtain ⟨n0, htln⟩ := road.exists_tln_of_parse out hout
  rw [road.parse_eq_sidewalk n0 htln] at hout
  have hout2 := Option.some.inj hout
  rw [road.sidewalkIns_both Side.left hb,
    road.sidewalkIns_both Side.right hb] at hout2
  subst hout2
  exact ⟨rfl, List.getLast?_concat _⟩

/-- C9: when `sidewalk=both` makes `Road.parse` emit sidewalk lanes at both
boundaries, those foot lanes are the first and last elements of the output;
and in every output, a bicycle-designated lane never lies outside a
foot-designated sidewalk lane on its side — a foot lane at position `i` and
a bicycle lane at position `j` always satisfy: the foot lane is the first
element with the bicycle lane strictly after it, or the foot lane is the
last element with the bicycle lane strictly before it. -/
theorem c9_boundary :
    (∀ (tags : Tags) (ds : DrivingSide) (out : List Lane),
      Tags.get tags "sidewalk" = some "both" →
      (Road.mk tags ds).parse = some out →
      out.head? = some footLane ∧ out.getLast? = some footLane)
    ∧ (∀ (tags : Tags) (ds : DrivingSide) (out : List Lane)
        (i j : Nat) (hi : i < out.length) (hj : j < out.length),
      (Road.mk tags ds).parse = some out →
      (out.get ⟨i, hi⟩).designation = some LaneDesignation.foot →
      (out.get ⟨j, hj⟩).designation = some LaneDesignation.bicycle →
      (i = 0 ∧ i < j) ∨ (i + 1 = out.length ∧ j < i)) := by
  constructor
  · intro tags ds out hb hout
    exact (Road.mk tags ds).sidewalk_both_ends out hb hout
  · intro tags ds out i j hi hj hout hfoot hbike
    obtain ⟨n0, htln⟩ := (Road.mk tags ds).exists_tln_of_parse out hout
    have hends := (Road.mk tags ds).foot_at_ends n0 htln out hout i hi hfoot
    have hne : i ≠ j := by
      intro he
      subst he
      have h2 : out.get ⟨i, hi⟩ = out.get ⟨i, hj⟩ := rfl
      rw [← h2] at hbike
      rw [hfoot] at hbike
      exact absurd hbike (by decide)
    rcases hends with h0 | hl
    · exact Or.inl ⟨h0, by omega⟩
    · exact Or.inr ⟨hl, by omega⟩

/-- Witness for C9, at `{"sidewalk": "both", "cycleway:right": "track"}`
under right-hand traffic: output `[foot, backward, forward, bicycle, foot]`,
foot at position 4, bicycle at position 3. -/
theorem c9_witness :
    ([footLane, motorLane Direction.backward, motorLane Direction.forward,
        bicycleLane Direction.both, footLane].head? = some footLane
      ∧ [footLane, motorLane Direction.backward, motorLane Direction.forward,
        bicycleLane Direction.both, footLane].getLast? = some footLane)
    ∧ ((4 = 0 ∧ 4 < 3)
      ∨ (4 + 1 = [footLane, motorLane Direction.backward, motorLane Direction.forward,
          bicycleLane Direction.both, footLane].length ∧ 3 < 4)) :=
  ⟨c9_boundary.1 [("sidewalk", "both"), ("cycleway:right", "track")]
      DrivingSide.right
      [footLane, motorLane Direction.backward, motorLane Direction.forward,
        bicycleLane Direction.both, footLane] (by decide) (by decide),
   c9_boundary.2 [("sidewalk", "both"), ("cycleway:right", "track")]
      DrivingSide.right
      [footLane, motorLane Direction.backward, motorLane Direction.forward,
        bicycleLane Direction.both, footLane] 4 3 (by decide) (by decide)
      (by decide) (by decide) (by decide)⟩

/-! ### Claim C10 -/

/-- C10: each overlay section only prepends lanes at the left end and appends
lanes at the right end of the sequence built so far (with the insertions
depending only on the road), and consequently the travel lanes produced by
the lane-count section appear in the final output as one contiguous block in
their original order, with every overlay lane — none of which is a motor
travel lane — strictly outside that block. -/
theorem c10_frame :
    (∀ (road : Road) (lanes : List Lane),
      road.cyclewayPhase lanes
      = road.cyclewayIns Side.left ++ lanes ++ road.cyclewayIns Side.right)
    ∧ (∀ (road : Road) (lanes : List Lane),
      road.buswayPhase lanes
      = road.buswayIns Side.left ++ road.buswayBothIns Side.left ++ lanes
        ++ road.buswayBothIns Side.right ++ road.buswayIns Side.right)
    ∧ (∀ (road : Road) (lanes : List Lane),
      road.parkingPhase lanes
      = road.parkingIns Side.left ++ road.parkingBothIns Side.left ++ lanes
        ++ road.parkingBothIns Side.right ++ road.parkingIns Side.right)
    ∧ (∀ (road : Road) (lanes : List Lane),
      road.sidewalkPhase lanes
      = road.sidewalkIns Side.left ++ lanes ++ road.sidewalkIns Side.right)
    ∧ (∀ (road : Road) (n0 : Int),
      road.travel_lane_number = some n0 →
      ∃ pre post,
        road.parse = some (pre
          ++ road.laneCountPhase (if n0 = 1 ∧ road.oneway = false then 2 else n0)
          ++ post)
        ∧ (∀ l ∈ pre, ¬(l.type_ = LaneType.travel
            ∧ l.designation = some LaneDesignation.motor))
        ∧ (∀ l ∈ post, ¬(l.type_ = LaneType.travel
            ∧ l.designation = some LaneDesignation.motor))) := by
  refine ⟨Road.cyclewayPhase_eq, Road.buswayPhase_eq, Road.parkingPhase_eq,
    Road.sidewalkPhase_eq, ?_⟩
  intro road n0 h
  refine ⟨road.leftOverlay, road.rightOverlay, road.parse_eq n0 h, ?_, ?_⟩
  · intro l hl
    exact road.mem_overlay_not_motorTravel l (Or.inl hl)
  · intro l hl
    exact road.mem_overlay_not_motorTravel l (Or.inr hl)

/-- Witness for C10, at `{"cycleway:left": "lane"}` under right-hand
traffic. -/
theorem c10_witness :
    ∃ pre post,
      (Road.mk [("cycleway:left", "lane")] DrivingSide.right).parse
        = some (pre
          ++ (Road.mk [("cycleway:left", "lane")] DrivingSide.right).laneCountPhase
            (if (2 : Int) = 1 ∧ (Road.mk [("cycleway:left", "lane")]
                DrivingSide.right).oneway = false then 2 else 2)
          ++ post)
      ∧ (∀ l ∈ pre, ¬(l.type_ = LaneType.travel
          ∧ l.designation = some LaneDesignation.motor))
      ∧ (∀ l ∈ post, ¬(l.type_ = LaneType.travel
          ∧ l.designation = some LaneDesignation.motor)) :=
  c10_frame.2.2.2.2 (Road.mk [("cycleway:left", "lane")] DrivingSide.right) 2
    (by decide)

end Osm2Lanes
